import Mathlib

/-! Parameter validation of the liquidity module.

A shallow embedding of `x/liquidity/types/params.go`: the module parameters, the five
field validators and the aggregate `Params.Validate`, followed by the theorems that
settle the claims made about them.

Conventions of the embedding.

* A Go `error` result is an `Option Err`: `none` is the nil error.
* A Go slice is an `Option (List α)`: `none` is the nil slice, `some xs` a non-nil slice.
* `sdk.Int` is an arbitrary-precision integer, embedded as `Int`.
* `sdk.Dec` is an 18-decimal fixed-point number, embedded by its scaled integer.
* The `interface` argument of a field validator is a `Value`, a tagged union of the
  dynamic types a caller can hand over.
* The `uint32` fields of a pool type are natural numbers; the conversion `int(...)` of
  the source is exact, so no wrap-around enters the checks.
* The library method `sdk.Coins.Validate` is an argument of the creation-fee validator
  and of `Params.Validate`; `Coins.Validate` below is the instance used where a claim
  depends on what the library checks.
* The genesis functions live in `genesis.go`, which is not among the sources; they follow
  the specification, with the pool-record check as an argument.
-/

namespace Liquidity

/-! ## Go slices -/

/-- A Go slice value: `none` is the nil slice, `some xs` a non-nil slice holding `xs`. -/
abbrev Slice (α : Type) := Option (List α)

/-- The elements of a slice; the nil slice has none. -/
def Slice.elems {α : Type} : Slice α → List α
  | none => []
  | some xs => xs

/-- Go `len(s)`; `len(nil) = 0`. -/
def Slice.len {α : Type} (s : Slice α) : Nat := s.elems.length

/-! ## Library types: `sdk.Int`, `sdk.Dec`, `sdk.Coin`, `sdk.Coins` -/

/-- `sdk.Int.IsPositive`: the sign of the integer is `1`. -/
def IsPositive (v : Int) : Bool := decide (0 < v)

/-- `sdk.Int.LT`. -/
def LT (v w : Int) : Bool := decide (v < w)

/-- Number of decimal places of `sdk.Dec`. -/
def Precision : Nat := 18

/-- `sdk.Dec`: a fixed-point decimal, held as the integer `i` = value times `10 ^ 18`. -/
structure Dec where
  i : Int
deriving DecidableEq

/-- The rational number a `Dec` stands for. -/
def Dec.toRat (d : Dec) : ℚ := (d.i : ℚ) / (10 : ℚ) ^ Precision

/-- `sdk.NewDec(n)`: the whole number `n`. -/
def NewDec (n : Int) : Dec := ⟨n * 10 ^ Precision⟩

/-- `sdk.NewDecWithPrec(n, prec)`: the number `n / 10 ^ prec`, for `prec ≤ 18`. -/
def NewDecWithPrec (n : Int) (prec : Nat) : Dec := ⟨n * 10 ^ (Precision - prec)⟩

/-- `sdk.OneDec()`. -/
def OneDec : Dec := ⟨10 ^ Precision⟩

/-- `sdk.Dec.IsNegative`: the sign of the scaled integer is `-1`. -/
def Dec.IsNegative (d : Dec) : Bool := decide (d.i < 0)

/-- `sdk.Dec.GT`: comparison of the scaled integers. -/
def Dec.GT (d d2 : Dec) : Bool := decide (d2.i < d.i)

/-- `sdk.Coin`: a denomination and an amount. -/
structure Coin where
  Denom : String
  Amount : Int
deriving DecidableEq

/-- `sdk.Coin.IsPositive`. -/
def Coin.IsPositive (c : Coin) : Bool := Liquidity.IsPositive c.Amount

/-- `sdk.Coins`: a slice of coins. -/
abbrev Coins := Slice Coin

/-- `sdk.Coins.Empty`: `len(coins) == 0`. -/
def Coins.Empty (coins : Coins) : Bool := decide (coins.len = 0)

/-- `sdk.NewCoins` applied to a single coin of positive amount. -/
def NewCoins (c : Coin) : Coins := some [c]

/-- The errors `sdk.Coins.Validate` reports. -/
inductive CoinsErr
  /-- The denomination is rejected by `sdk.ValidateDenom`. -/
  | invalidDenom (denom : String)
  /-- The amount of the coin is not positive. -/
  | notPositive (coin : Coin)
  /-- The denomination occurred before. -/
  | duplicateDenom (denom : String)
  /-- The denomination is not above the previous one. -/
  | notSorted (denom : String)
deriving DecidableEq

/-! ## Module types and constants -/

/-- `LiquidityPoolType`, with the fields the source sets; the indices and counts are
`uint32` in the source. -/
structure LiquidityPoolType where
  PoolTypeIndex : Nat
  Name : String
  MinReserveCoinNum : Nat
  MaxReserveCoinNum : Nat
deriving DecidableEq

/-- Modelled from the spec: the generated method `LiquidityPoolType.Equal` (in the
protobuf output of the module) is not among the sources; the spec calls it structural
equality with the canonical default pool type, so it compares every field. -/
def LiquidityPoolType.Equal (a b : LiquidityPoolType) : Bool :=
  a.PoolTypeIndex == b.PoolTypeIndex && a.Name == b.Name &&
    a.MinReserveCoinNum == b.MinReserveCoinNum && a.MaxReserveCoinNum == b.MaxReserveCoinNum

/-- Constant `MinReserveCoinNum`. -/
def MinReserveCoinNum : Nat := 2

/-- Constant `MaxReserveCoinNum`. -/
def MaxReserveCoinNum : Nat := 2

/-- Constant `DefaultPoolTypeIndex`. -/
def DefaultPoolTypeIndex : Nat := 1

/-- `DefaultMinInitDepositToPool = sdk.NewInt(1000000)`. -/
def DefaultMinInitDepositToPool : Int := 1000000

/-- `DefaultInitPoolCoinMintAmount = sdk.NewInt(1000000)`. -/
def DefaultInitPoolCoinMintAmount : Int := 1000000

/-- `DefaultSwapFeeRate = sdk.NewDecWithPrec(3, 3)`. -/
def DefaultSwapFeeRate : Dec := NewDecWithPrec 3 3

/-- `sdk.DefaultBondDenom`. -/
def DefaultBondDenom : String := "stake"

/-- `DefaultLiquidityPoolCreationFee`: 100000000 of the bond denomination. -/
def DefaultLiquidityPoolCreationFee : Coins := NewCoins ⟨DefaultBondDenom, 100000000⟩

/-- `DefaultLiquidityPoolType`. -/
def DefaultLiquidityPoolType : LiquidityPoolType where
  PoolTypeIndex := 1
  Name := "DefaultPoolType"
  MinReserveCoinNum := MinReserveCoinNum
  MaxReserveCoinNum := MaxReserveCoinNum

/-- `Params`: the parameters of the module. -/
structure Params where
  LiquidityPoolTypes : Slice LiquidityPoolType
  MinInitDepositToPool : Int
  InitPoolCoinMintAmount : Int
  SwapFeeRate : Dec
  LiquidityPoolCreationFee : Coins
deriving DecidableEq

/-- `NewParams`. -/
def NewParams (liquidityPoolTypes : Slice LiquidityPoolType) (minInitDeposit initPoolCoinMint : Int)
    (swapFeeRate : Dec) (creationFee : Coins) : Params where
  LiquidityPoolTypes := liquidityPoolTypes
  MinInitDepositToPool := minInitDeposit
  InitPoolCoinMintAmount := initPoolCoinMint
  SwapFeeRate := swapFeeRate
  LiquidityPoolCreationFee := creationFee

/-- `DefaultParams`: appending to a nil slice gives a one-element slice. -/
def DefaultParams : Params :=
  NewParams (some [DefaultLiquidityPoolType]) DefaultMinInitDepositToPool
    DefaultInitPoolCoinMintAmount DefaultSwapFeeRate DefaultLiquidityPoolCreationFee

/-! ## Dynamic values and errors -/

/-- The value behind the `interface` argument of a field validator, by dynamic type. -/
inductive Value
  /-- A `[]LiquidityPoolType`. -/
  | poolTypes (v : Slice LiquidityPoolType)
  /-- An `sdk.Int`. -/
  | int (v : Int)
  /-- An `sdk.Dec`. -/
  | dec (v : Dec)
  /-- An `sdk.Coins`. -/
  | coins (v : Coins)
  /-- A value of any other dynamic type, given by the name of the type. -/
  | other (typeName : String)
deriving DecidableEq

/-- What the verb `%T` prints for a value. -/
def Value.typeName : Value → String
  | .poolTypes _ => "[]types.LiquidityPoolType"
  | .int _ => "types.Int"
  | .dec _ => "types.Dec"
  | .coins _ => "types.Coins"
  | .other n => n

/-- The errors of the validators, one constructor for each `fmt.Errorf` of the source,
holding the value the message is formatted with. -/
inductive Err
  /-- Message "invalid parameter type: %T" (TypeMismatch). -/
  | invalidParameterType (typeName : String)
  /-- Message "empty parameter: LiquidityPoolTypes" (EmptyConfiguration). -/
  | emptyParameter
  /-- Message "LiquidityPoolTypes index must be sorted" (IndexNotSorted). -/
  | indexMustBeSorted
  /-- Message "only default pool type allowed on this version" (UnsupportedCount). -/
  | onlyDefaultOnThisVersion
  /-- Message "need to default pool type" (UnsupportedCount). -/
  | needDefaultPoolType
  /-- Message "only default pool type allowed" (NotDefaultType). -/
  | onlyDefaultAllowed
  /-- Message "MinInitDepositToPool must be positive: %d" (NotPositive). -/
  | minInitDepositMustBePositive (v : Int)
  /-- Message "InitPoolCoinMintAmount must be positive: %d" (NotPositive). -/
  | mintAmountMustBePositive (v : Int)
  /-- Message "InitPoolCoinMintAmount should over default value: %d" (BelowFloor). -/
  | mintAmountShouldOverDefault (v : Int)
  /-- Message "SwapFeeRate cannot be negative: %s" (Negative). -/
  | swapFeeRateNegative (v : Dec)
  /-- Message "SwapFeeRate too large: %s" (TooLarge). -/
  | swapFeeRateTooLarge (v : Dec)
  /-- Message "LiquidityPoolCreationFee cannot be Empty: %s" (EmptyFee). -/
  | creationFeeEmpty (coins : Coins)
  /-- An error of `sdk.Coins.Validate`, handed on as it is. -/
  | coins (e : CoinsErr)
deriving DecidableEq

/-! ## The field validators -/

/-- The loop `for i, p := range v` of `validateLiquidityPoolTypes`, from position `i`. -/
def indexLoop : Nat → List LiquidityPoolType → Option Err
  | _, [] => none
  | i, p :: rest =>
    if i + 1 ≠ p.PoolTypeIndex then some Err.indexMustBeSorted else indexLoop (i + 1) rest

/-- `validateLiquidityPoolTypes`. -/
def validateLiquidityPoolTypes (i : Value) : Option Err :=
  match i with
  | .poolTypes v =>
    if v = none then some Err.emptyParameter
    else
      match indexLoop 0 v.elems with
      | some err => some err
      | none =>
        if v.len > 1 then some Err.onlyDefaultOnThisVersion
        else if h : v.len < 1 then some Err.needDefaultPoolType
        else if !(v.elems.get ⟨0, by unfold Slice.len at h; omega⟩).Equal DefaultLiquidityPoolType then
          some Err.onlyDefaultAllowed
        else none
  | _ => some (Err.invalidParameterType i.typeName)

/-- `validateMinInitDepositToPool`. -/
def validateMinInitDepositToPool (i : Value) : Option Err :=
  match i with
  | .int v =>
    if !IsPositive v then some (Err.minInitDepositMustBePositive v) else none
  | _ => some (Err.invalidParameterType i.typeName)

/-- `validateInitPoolCoinMintAmount`. -/
def validateInitPoolCoinMintAmount (i : Value) : Option Err :=
  match i with
  | .int v =>
    if !IsPositive v then some (Err.mintAmountMustBePositive v)
    else if LT v DefaultInitPoolCoinMintAmount then some (Err.mintAmountShouldOverDefault v)
    else none
  | _ => some (Err.invalidParameterType i.typeName)

/-- `validateSwapFeeRate`. -/
def validateSwapFeeRate (i : Value) : Option Err :=
  match i with
  | .dec v =>
    if v.IsNegative then some (Err.swapFeeRateNegative v)
    else if v.GT OneDec then some (Err.swapFeeRateTooLarge v)
    else none
  | _ => some (Err.invalidParameterType i.typeName)

/-- `validateLiquidityPoolCreationFee`; `coinsValidate` is the library method
`sdk.Coins.Validate` it delegates to. -/
def validateLiquidityPoolCreationFee (coinsValidate : Coins → Option CoinsErr) (i : Value) :
    Option Err :=
  match i with
  | .coins coins =>
    match coinsValidate coins with
    | some err => some (Err.coins err)
    | none =>
      if coins.Empty then some (Err.creationFeeEmpty coins) else none
  | _ => some (Err.invalidParameterType i.typeName)

/-! ## The aggregate validator -/

/-- `Params.Validate`: the five field validators in the order of the source, the first
error returned. -/
def Params.Validate (coinsValidate : Coins → Option CoinsErr) (p : Params) : Option Err :=
  match validateLiquidityPoolTypes (Value.poolTypes p.LiquidityPoolTypes) with
  | some err => some err
  | none =>
    match validateMinInitDepositToPool (Value.int p.MinInitDepositToPool) with
    | some err => some err
    | none =>
      match validateInitPoolCoinMintAmount (Value.int p.InitPoolCoinMintAmount) with
      | some err => some err
      | none =>
        match validateSwapFeeRate (Value.dec p.SwapFeeRate) with
        | some err => some err
        | none =>
          match validateLiquidityPoolCreationFee coinsValidate
              (Value.coins p.LiquidityPoolCreationFee) with
          | some err => some err
          | none => none

/-! ## The library check `sdk.Coins.Validate` -/

/-- The loop of `sdk.Coins.Validate` over the coins after the first: `lowDenom` is the
denomination of the previous coin, `seen` the denominations met so far. -/
def coinsValidateLoop (validDenom : String → Bool) :
    String → List String → List Coin → Option CoinsErr
  | _, _, [] => none
  | lowDenom, seen, coin :: rest =>
    if coin.Denom ∈ seen then some (CoinsErr.duplicateDenom coin.Denom)
    else if !validDenom coin.Denom then some (CoinsErr.invalidDenom coin.Denom)
    else if coin.Denom ≤ lowDenom then some (CoinsErr.notSorted coin.Denom)
    else if !coin.IsPositive then some (CoinsErr.notPositive coin)
    else coinsValidateLoop validDenom coin.Denom (coin.Denom :: seen) rest

/-- Modelled from the spec: `sdk.Coins.Validate` belongs to the cosmos-sdk library and is
not among the sources. The spec describes it as the well-formedness check of a coin bag:
sorted, no duplicate denominations, valid denomination syntax, and amounts that are
positive (data model; the library rejects a zero amount). An empty bag passes.
`validDenom` is the denomination syntax check `sdk.ValidateDenom`, a regular expression
fixed by the library. -/
def Coins.Validate (validDenom : String → Bool) (coins : Coins) : Option CoinsErr :=
  match coins.elems with
  | [] => none
  | c :: rest =>
    if !validDenom c.Denom then some (CoinsErr.invalidDenom c.Denom)
    else if !c.IsPositive then some (CoinsErr.notPositive c)
    else coinsValidateLoop validDenom c.Denom [c.Denom] rest

/-! ## The parameter store registration -/

/-- Parameter store key `KeyLiquidityPoolTypes`, a byte string given by its text. -/
def KeyLiquidityPoolTypes : String := "LiquidityPoolTypes"

/-- Parameter store key `KeyMinInitDepositToPool`. -/
def KeyMinInitDepositToPool : String := "MinInitDepositToPool"

/-- Parameter store key `KeyInitPoolCoinMintAmount`. -/
def KeyInitPoolCoinMintAmount : String := "InitPoolCoinMintAmount"

/-- Parameter store key `KeySwapFeeRate`. -/
def KeySwapFeeRate : String := "SwapFeeRate"

/-- Parameter store key `KeyLiquidityPoolCreationFee`. -/
def KeyLiquidityPoolCreationFee : String := "LiquidityPoolCreationFee"

/-- Parameter store key `KeyUnitBatchSize`, declared and not registered. -/
def KeyUnitBatchSize : String := "UnitBatchSize"

/-- `paramtypes.ParamSetPair`: a key, the value of the field the pair points to, and the
validator the store runs on a value for that key. -/
structure ParamSetPair where
  Key : String
  Value : Liquidity.Value
  ValidatorFn : Liquidity.Value → Option Err

/-- `paramtypes.NewParamSetPair`. -/
def NewParamSetPair (key : String) (value : Liquidity.Value)
    (vfn : Liquidity.Value → Option Err) : ParamSetPair :=
  ⟨key, value, vfn⟩

/-- `Params.ParamSetPairs`: the five registered pairs, in the order of the source. -/
def Params.ParamSetPairs (coinsValidate : Coins → Option CoinsErr) (p : Params) :
    List ParamSetPair :=
  [NewParamSetPair KeyLiquidityPoolTypes (Value.poolTypes p.LiquidityPoolTypes)
      validateLiquidityPoolTypes,
   NewParamSetPair KeyMinInitDepositToPool (Value.int p.MinInitDepositToPool)
      validateMinInitDepositToPool,
   NewParamSetPair KeyInitPoolCoinMintAmount (Value.int p.InitPoolCoinMintAmount)
      validateInitPoolCoinMintAmount,
   NewParamSetPair KeySwapFeeRate (Value.dec p.SwapFeeRate) validateSwapFeeRate,
   NewParamSetPair KeyLiquidityPoolCreationFee (Value.coins p.LiquidityPoolCreationFee)
      (validateLiquidityPoolCreationFee coinsValidate)]

/-! ## Genesis state -/

/-- `GenesisState`: the parameters and the pool records; the shape of a record is left
open. -/
structure GenesisState (ρ : Type) where
  Params : Liquidity.Params
  LiquidityPoolRecords : Slice ρ

/-- Modelled from the spec: `NewGenesisState` (genesis.go) is not among the sources; it
builds the state from parameters and pool records. -/
def NewGenesisState {ρ : Type} (params : Params) (records : Slice ρ) : GenesisState ρ :=
  ⟨params, records⟩

/-- Modelled from the spec: `DefaultGenesisState` (genesis.go) is not among the sources;
the default state holds the default parameters and no pool record. -/
def DefaultGenesisState {ρ : Type} : GenesisState ρ :=
  NewGenesisState DefaultParams (some [])

/-- Modelled from the spec: `ValidateGenesis` (genesis.go) is not among the sources. The
spec: it first calls `state.Params.Validate()` and propagates any failure unchanged; only
if the parameters are valid does it proceed to the pool-record checks, which are external
and here the argument `recordsValidate`. -/
def ValidateGenesis {ρ : Type} (coinsValidate : Coins → Option CoinsErr)
    (recordsValidate : Slice ρ → Option Err) (state : GenesisState ρ) : Option Err :=
  match state.Params.Validate coinsValidate with
  | some err => some err
  | none => recordsValidate state.LiquidityPoolRecords

/-! ## Sample inputs -/

/-- A denomination syntax check for the examples: a letter followed by 2 to 127 letters,
digits or slashes. -/
def sampleValidDenom (d : String) : Bool :=
  match d.toList with
  | [] => false
  | c :: rest =>
    c.isAlpha && decide (2 ≤ rest.length) && decide (rest.length ≤ 127) &&
      rest.all (fun x => x.isAlphanum || x == '/')

/-- A parameter set with a nil pool-type list and a zero minimum deposit. -/
def nilPoolTypesZeroDeposit : Params :=
  ⟨none, 0, DefaultInitPoolCoinMintAmount, DefaultSwapFeeRate, DefaultLiquidityPoolCreationFee⟩

/-- The default parameters with the minimum deposit set to 0. -/
def zeroDepositParams : Params :=
  ⟨some [DefaultLiquidityPoolType], 0, DefaultInitPoolCoinMintAmount, DefaultSwapFeeRate,
    DefaultLiquidityPoolCreationFee⟩

/-- The default parameters with a creation fee of amount 0 in the bond denomination. -/
def zeroFeeParams : Params :=
  ⟨some [DefaultLiquidityPoolType], DefaultMinInitDepositToPool, DefaultInitPoolCoinMintAmount,
    DefaultSwapFeeRate, some [⟨DefaultBondDenom, 0⟩]⟩

/-- The default parameters with a creation fee of two coins, sorted by denomination. -/
def twoCoinFeeParams : Params :=
  ⟨some [DefaultLiquidityPoolType], DefaultMinInitDepositToPool, DefaultInitPoolCoinMintAmount,
    DefaultSwapFeeRate, some [⟨"atom", 5⟩, ⟨DefaultBondDenom, 100000000⟩]⟩

/-- A pool type with the default reserve coin numbers and index, under another name. -/
def renamedPoolType : LiquidityPoolType := ⟨1, "OtherPoolType", 2, 2⟩

/-- The default pool type moved to index 2. -/
def reindexedPoolType : LiquidityPoolType := ⟨2, "DefaultPoolType", 2, 2⟩

/-! ## Lemmas on the embedding -/

theorem LiquidityPoolType.Equal_iff (a b : LiquidityPoolType) : a.Equal b = true ↔ a = b := by
  cases a; cases b
  simp [LiquidityPoolType.Equal, and_assoc]

theorem indexLoop_eq_some (i : Nat) (l : List LiquidityPoolType) (e : Err)
    (h : indexLoop i l = some e) : e = Err.indexMustBeSorted := by
  induction l generalizing i with
  | nil => simp [indexLoop] at h
  | cons p rest ih =>
    unfold indexLoop at h
    split at h
    · exact (Option.some.inj h).symm
    · exact ih (i + 1) h

theorem indexLoop_eq_none_iff (i : Nat) (l : List LiquidityPoolType) :
    indexLoop i l = none ↔
      ∀ k (h : k < l.length), (l.get ⟨k, h⟩).PoolTypeIndex = i + k + 1 := by
  induction l generalizing i with
  | nil => simp [indexLoop]
  | cons p rest ih =>
    unfold indexLoop
    constructor
    · intro h k hk
      split at h
      · cases h
      · rename_i hp
        have hp0 : p.PoolTypeIndex = i + 1 := by
          by_contra hne
          exact hp (fun heq => hne heq.symm)
        cases k with
        | zero => simpa using hp0
        | succ k =>
          have hk1 := (ih (i + 1)).1 h k (by simpa using hk)
          show (rest.get ⟨k, _⟩).PoolTypeIndex = i + (k + 1) + 1
          omega
    · intro h
      have h0 : p.PoolTypeIndex = i + 0 + 1 := h 0 (by simp)
      have hc : ¬ (i + 1 ≠ p.PoolTypeIndex) := by omega
      rw [if_neg hc]
      refine (ih (i + 1)).2 ?_
      intro k hk
      have hk1 : (rest.get ⟨k, hk⟩).PoolTypeIndex = i + (k + 1) + 1 :=
        h (k + 1) (by simpa using hk)
      omega

/-- The pool-type validator on a pool-type slice, check by check. -/
theorem validateLiquidityPoolTypes_poolTypes (v : Slice LiquidityPoolType) :
    validateLiquidityPoolTypes (Value.poolTypes v) =
      match v with
      | none => some Err.emptyParameter
      | some l =>
        if indexLoop 0 l ≠ none then some Err.indexMustBeSorted
        else if 1 < l.length then some Err.onlyDefaultOnThisVersion
        else if l.length < 1 then some Err.needDefaultPoolType
        else if l ≠ [DefaultLiquidityPoolType] then some Err.onlyDefaultAllowed
        else none := by
  cases v with
  | none => simp [validateLiquidityPoolTypes]
  | some l =>
    simp only [validateLiquidityPoolTypes, Slice.elems, Slice.len]
    rw [if_neg (by simp)]
    cases hloop : indexLoop 0 l with
    | some e =>
      have := indexLoop_eq_some 0 l e hloop
      subst this
      simp
    | none =>
      simp only [ne_eq, not_true_eq_false, if_false]
      match l with
      | [] => simp
      | [t] =>
        by_cases ht : t = DefaultLiquidityPoolType
        · simp [ht, (LiquidityPoolType.Equal_iff _ _).2 rfl]
        · have hne : t.Equal DefaultLiquidityPoolType = false := by
            cases hb : t.Equal DefaultLiquidityPoolType with
            | false => rfl
            | true => exact absurd ((LiquidityPoolType.Equal_iff _ _).1 hb) ht
          simp [ht, hne]
      | _ :: _ :: _ => simp

theorem validateLiquidityPoolTypes_eq_none_iff (v : Slice LiquidityPoolType) :
    validateLiquidityPoolTypes (Value.poolTypes v) = none ↔ v = some [DefaultLiquidityPoolType] := by
  rw [validateLiquidityPoolTypes_poolTypes]
  cases v with
  | none => simp
  | some l =>
    constructor
    · intro h
      simp only at h
      split at h
      · cases h
      · split at h
        · cases h
        · split at h
          · cases h
          · split at h
            · cases h
            · rename_i hl
              simp only [ne_eq, not_not] at hl
              rw [hl]
    · intro h
      cases h
      simp [indexLoop, DefaultLiquidityPoolType]

theorem validateMinInitDepositToPool_int (v : Int) :
    validateMinInitDepositToPool (Value.int v) =
      if v ≤ 0 then some (Err.minInitDepositMustBePositive v) else none := by
  by_cases h : 0 < v
  · simp [validateMinInitDepositToPool, IsPositive, h, not_le.2 h]
  · simp [validateMinInitDepositToPool, IsPositive, h, not_lt.1 h]

theorem validateInitPoolCoinMintAmount_int (v : Int) :
    validateInitPoolCoinMintAmount (Value.int v) =
      if v ≤ 0 then some (Err.mintAmountMustBePositive v)
      else if v < 1000000 then some (Err.mintAmountShouldOverDefault v)
      else none := by
  by_cases h : 0 < v
  · simp [validateInitPoolCoinMintAmount, IsPositive, LT, DefaultInitPoolCoinMintAmount, h,
      not_le.2 h]
  · simp [validateInitPoolCoinMintAmount, IsPositive, h, not_lt.1 h]

theorem Dec.toRat_neg_iff (d : Dec) : d.toRat < 0 ↔ d.i < 0 := by
  unfold Dec.toRat
  rw [div_lt_iff₀ (by positivity)]
  simp

theorem Dec.one_lt_toRat_iff (d : Dec) : 1 < d.toRat ↔ (10 : Int) ^ Precision < d.i := by
  unfold Dec.toRat
  rw [lt_div_iff₀ (by positivity), one_mul]
  exact_mod_cast Iff.rfl

theorem validateSwapFeeRate_dec (v : Dec) :
    validateSwapFeeRate (Value.dec v) =
      if v.toRat < 0 then some (Err.swapFeeRateNegative v)
      else if 1 < v.toRat then some (Err.swapFeeRateTooLarge v)
      else none := by
  simp only [validateSwapFeeRate, Dec.IsNegative, Dec.GT, OneDec, decide_eq_true_eq,
    Dec.toRat_neg_iff, Dec.one_lt_toRat_iff]

theorem validateLiquidityPoolCreationFee_coins (cv : Coins → Option CoinsErr) (c : Coins) :
    validateLiquidityPoolCreationFee cv (Value.coins c) =
      match cv c with
      | some err => some (Err.coins err)
      | none => if c.len = 0 then some (Err.creationFeeEmpty c) else none := by
  simp only [validateLiquidityPoolCreationFee, Coins.Empty, decide_eq_true_eq]

theorem validateMinInitDepositToPool_eq_none_iff (v : Int) :
    validateMinInitDepositToPool (Value.int v) = none ↔ 0 < v := by
  rw [validateMinInitDepositToPool_int]
  split <;> simp <;> omega

theorem validateInitPoolCoinMintAmount_eq_none_iff (v : Int) :
    validateInitPoolCoinMintAmount (Value.int v) = none ↔ 1000000 ≤ v := by
  rw [validateInitPoolCoinMintAmount_int]
  split
  · simp; omega
  · split <;> simp <;> omega

theorem validateSwapFeeRate_eq_none_iff (v : Dec) :
    validateSwapFeeRate (Value.dec v) = none ↔ 0 ≤ v.toRat ∧ v.toRat ≤ 1 := by
  rw [validateSwapFeeRate_dec]
  split
  · rename_i h
    simp [h]
  · rename_i h
    split
    · rename_i h1
      simp [h1]
    · rename_i h1
      simp [not_lt.1 h, not_lt.1 h1]

theorem validateLiquidityPoolCreationFee_eq_none_iff (cv : Coins → Option CoinsErr)
    (c : Coins) :
    validateLiquidityPoolCreationFee cv (Value.coins c) = none ↔ cv c = none ∧ c.len ≠ 0 := by
  rw [validateLiquidityPoolCreationFee_coins]
  cases cv c with
  | some e => simp
  | none => simp

/-- The aggregate validator accepts exactly when each of the five validators does. -/
theorem Params.Validate_eq_none (cv : Coins → Option CoinsErr) (p : Params) :
    p.Validate cv = none ↔
      validateLiquidityPoolTypes (Value.poolTypes p.LiquidityPoolTypes) = none ∧
      validateMinInitDepositToPool (Value.int p.MinInitDepositToPool) = none ∧
      validateInitPoolCoinMintAmount (Value.int p.InitPoolCoinMintAmount) = none ∧
      validateSwapFeeRate (Value.dec p.SwapFeeRate) = none ∧
      validateLiquidityPoolCreationFee cv (Value.coins p.LiquidityPoolCreationFee) = none := by
  unfold Params.Validate
  cases validateLiquidityPoolTypes (Value.poolTypes p.LiquidityPoolTypes) <;>
  cases validateMinInitDepositToPool (Value.int p.MinInitDepositToPool) <;>
  cases validateInitPoolCoinMintAmount (Value.int p.InitPoolCoinMintAmount) <;>
  cases validateSwapFeeRate (Value.dec p.SwapFeeRate) <;>
  cases validateLiquidityPoolCreationFee cv (Value.coins p.LiquidityPoolCreationFee) <;>
  simp

/-- An error of the pool-type validator is the error of the aggregate validator. -/
theorem Params.Validate_of_poolTypes_err (cv : Coins → Option CoinsErr) (p : Params) (e : Err)
    (h : validateLiquidityPoolTypes (Value.poolTypes p.LiquidityPoolTypes) = some e) :
    p.Validate cv = some e := by
  unfold Params.Validate
  rw [h]

/-! ## C1: the aggregate invariant -/

/-- C1: for every `Params` p, `p.Validate()` returns nil if and only if the five field
invariants hold together: the pool types are exactly the one-element list of the default
pool type, the minimum deposit is positive, the mint amount is at least 1,000,000, the
swap fee rate lies in the closed interval from 0 to 1, and the creation fee is a non-empty
coin bag accepted by `Coins.Validate`; when one of them is violated an error is returned. -/
theorem Params.Validate_nil_iff_invariants (cv : Coins → Option CoinsErr) (p : Params) :
    (p.Validate cv = none ↔
      p.LiquidityPoolTypes = some [DefaultLiquidityPoolType] ∧
      0 < p.MinInitDepositToPool ∧
      1000000 ≤ p.InitPoolCoinMintAmount ∧
      (0 ≤ p.SwapFeeRate.toRat ∧ p.SwapFeeRate.toRat ≤ 1) ∧
      (p.LiquidityPoolCreationFee.len ≠ 0 ∧ cv p.LiquidityPoolCreationFee = none)) ∧
    (¬ (p.LiquidityPoolTypes = some [DefaultLiquidityPoolType] ∧
        0 < p.MinInitDepositToPool ∧
        1000000 ≤ p.InitPoolCoinMintAmount ∧
        (0 ≤ p.SwapFeeRate.toRat ∧ p.SwapFeeRate.toRat ≤ 1) ∧
        (p.LiquidityPoolCreationFee.len ≠ 0 ∧ cv p.LiquidityPoolCreationFee = none)) →
      ∃ e, p.Validate cv = some e) := by
  have key : p.Validate cv = none ↔
      p.LiquidityPoolTypes = some [DefaultLiquidityPoolType] ∧
      0 < p.MinInitDepositToPool ∧
      1000000 ≤ p.InitPoolCoinMintAmount ∧
      (0 ≤ p.SwapFeeRate.toRat ∧ p.SwapFeeRate.toRat ≤ 1) ∧
      (p.LiquidityPoolCreationFee.len ≠ 0 ∧ cv p.LiquidityPoolCreationFee = none) := by
    rw [Params.Validate_eq_none, validateLiquidityPoolTypes_eq_none_iff,
      validateMinInitDepositToPool_eq_none_iff, validateInitPoolCoinMintAmount_eq_none_iff,
      validateSwapFeeRate_eq_none_iff, validateLiquidityPoolCreationFee_eq_none_iff]
    constructor
    · rintro ⟨h1, h2, h3, h4, h5, h6⟩
      exact ⟨h1, h2, h3, h4, h6, h5⟩
    · rintro ⟨h1, h2, h3, h4, h6, h5⟩
      exact ⟨h1, h2, h3, h4, h5, h6⟩
  refine ⟨key, ?_⟩
  intro hviol
  cases hv : p.Validate cv with
  | none => exact absurd (key.1 hv) hviol
  | some e => exact ⟨e, rfl⟩

/-! ## C2: short-circuit order -/

/-- C2: `Params.Validate` is short-circuiting in the order pool types, min deposit, mint
amount, swap fee rate, creation fee: the error it returns is, unchanged, the error of the
first validator that fails, whatever the later fields hold; so a p with both an invalid
pool-type list and an invalid swap fee rate gets the pool-type error. -/
theorem Params.Validate_first_error (cv : Coins → Option CoinsErr) (p : Params) (e : Err) :
    (validateLiquidityPoolTypes (Value.poolTypes p.LiquidityPoolTypes) = some e →
      p.Validate cv = some e) ∧
    (validateLiquidityPoolTypes (Value.poolTypes p.LiquidityPoolTypes) = none →
      validateMinInitDepositToPool (Value.int p.MinInitDepositToPool) = some e →
      p.Validate cv = some e) ∧
    (validateLiquidityPoolTypes (Value.poolTypes p.LiquidityPoolTypes) = none →
      validateMinInitDepositToPool (Value.int p.MinInitDepositToPool) = none →
      validateInitPoolCoinMintAmount (Value.int p.InitPoolCoinMintAmount) = some e →
      p.Validate cv = some e) ∧
    (validateLiquidityPoolTypes (Value.poolTypes p.LiquidityPoolTypes) = none →
      validateMinInitDepositToPool (Value.int p.MinInitDepositToPool) = none →
      validateInitPoolCoinMintAmount (Value.int p.InitPoolCoinMintAmount) = none →
      validateSwapFeeRate (Value.dec p.SwapFeeRate) = some e →
      p.Validate cv = some e) ∧
    (validateLiquidityPoolTypes (Value.poolTypes p.LiquidityPoolTypes) = none →
      validateMinInitDepositToPool (Value.int p.MinInitDepositToPool) = none →
      validateInitPoolCoinMintAmount (Value.int p.InitPoolCoinMintAmount) = none →
      validateSwapFeeRate (Value.dec p.SwapFeeRate) = none →
      validateLiquidityPoolCreationFee cv (Value.coins p.LiquidityPoolCreationFee) = some e →
      p.Validate cv = some e) ∧
    (validateLiquidityPoolTypes (Value.poolTypes p.LiquidityPoolTypes) = some e →
      validateSwapFeeRate (Value.dec p.SwapFeeRate) ≠ none →
      p.Validate cv = some e) ∧
    (Params.Validate cv
        ⟨none, DefaultMinInitDepositToPool, DefaultInitPoolCoinMintAmount, NewDec 2,
          DefaultLiquidityPoolCreationFee⟩ = some Err.emptyParameter ∧
      validateSwapFeeRate (Value.dec (NewDec 2)) = some (Err.swapFeeRateTooLarge (NewDec 2))) := by
  refine ⟨?_, ?_, ?_, ?_, ?_, ?_, ?_, ?_⟩
  · intro h1
    unfold Params.Validate; rw [h1]
  · intro h1 h2
    unfold Params.Validate; rw [h1, h2]
  · intro h1 h2 h3
    unfold Params.Validate; rw [h1, h2, h3]
  · intro h1 h2 h3 h4
    unfold Params.Validate; rw [h1, h2, h3, h4]
  · intro h1 h2 h3 h4 h5
    unfold Params.Validate; rw [h1, h2, h3, h4, h5]
  · intro h1 _
    unfold Params.Validate; rw [h1]
  · rfl
  · decide

/-! ## C3 and C4: the pool-type list -/

/-- C3: for every sequence v of pool types, nil and empty included,
`validateLiquidityPoolTypes(v)` succeeds if and only if v has exactly one element and
that element equals the default pool type (index 1, name "DefaultPoolType", reserve coin
numbers 2 and 2). So a nil list, an empty list, a list longer than one, a list with an
index that is not its 1-based position, and a single element that differs from the default
are all rejected, and `Params.Validate` fails on every `Params` carrying such a list. -/
theorem validateLiquidityPoolTypes_succeeds_iff (v : Slice LiquidityPoolType) :
    (validateLiquidityPoolTypes (Value.poolTypes v) = none ↔
      ∃ t, v = some [t] ∧ t.PoolTypeIndex = 1 ∧ t.Name = "DefaultPoolType" ∧
        t.MinReserveCoinNum = 2 ∧ t.MaxReserveCoinNum = 2) ∧
    (v = none → validateLiquidityPoolTypes (Value.poolTypes v) ≠ none) ∧
    (v = some [] → validateLiquidityPoolTypes (Value.poolTypes v) ≠ none) ∧
    (1 < v.len → validateLiquidityPoolTypes (Value.poolTypes v) ≠ none) ∧
    ((∃ k, ∃ h : k < v.elems.length, (v.elems.get ⟨k, h⟩).PoolTypeIndex ≠ k + 1) →
      validateLiquidityPoolTypes (Value.poolTypes v) ≠ none) ∧
    (∀ t, v = some [t] → t ≠ DefaultLiquidityPoolType →
      validateLiquidityPoolTypes (Value.poolTypes v) ≠ none) ∧
    (∀ (cv : Coins → Option CoinsErr) (p : Params), p.LiquidityPoolTypes = v →
      validateLiquidityPoolTypes (Value.poolTypes v) ≠ none → p.Validate cv ≠ none) := by
  have key := validateLiquidityPoolTypes_eq_none_iff v
  refine ⟨?_, ?_, ?_, ?_, ?_, ?_, ?_⟩
  · rw [key]
    constructor
    · intro h
      exact ⟨DefaultLiquidityPoolType, h, rfl, rfl, rfl, rfl⟩
    · rintro ⟨t, hv, h1, h2, h3, h4⟩
      cases t
      simp only at h1 h2 h3 h4
      subst h1 h2 h3 h4
      exact hv
  · intro h
    rw [Ne, key, h]
    simp
  · intro h
    rw [Ne, key, h]
    simp
  · intro h hv
    rw [key] at hv
    rw [hv] at h
    simp [Slice.len, Slice.elems] at h
  · rintro ⟨k, hk, hne⟩ hv
    rw [key] at hv
    subst hv
    have hk0 : k = 0 := by simpa [Slice.elems] using hk
    subst hk0
    exact hne rfl
  · intro t hv ht hval
    rw [key, hv] at hval
    simp only [Option.some.injEq, List.cons.injEq, and_true] at hval
    exact ht hval
  · intro cv p hp hv hval
    rw [Params.Validate_eq_none, hp] at hval
    exact hv hval.1

/-- C4: `validateLiquidityPoolTypes` reports the first violated check in the order: nil
sequence (EmptyConfiguration); an element whose index is not its 1-based position
(IndexNotSorted); length above one (UnsupportedCount, "only default pool type allowed on
this version"); length below one (UnsupportedCount, "need to default pool type"); a sole
element that is not the default pool type (NotDefaultType). Hence a list longer than one
gets UnsupportedCount exactly when its indices are 1, 2, ..., n and IndexNotSorted
otherwise; the lists [Default, Default] and [index 0, Default] get IndexNotSorted. -/
theorem validateLiquidityPoolTypes_first_violation :
    validateLiquidityPoolTypes (Value.poolTypes none) = some Err.emptyParameter ∧
    (∀ l : List LiquidityPoolType,
      (∃ k, ∃ h : k < l.length, (l.get ⟨k, h⟩).PoolTypeIndex ≠ k + 1) →
      validateLiquidityPoolTypes (Value.poolTypes (some l)) = some Err.indexMustBeSorted) ∧
    (∀ l : List LiquidityPoolType,
      (∀ k, ∀ h : k < l.length, (l.get ⟨k, h⟩).PoolTypeIndex = k + 1) → 1 < l.length →
      validateLiquidityPoolTypes (Value.poolTypes (some l)) =
        some Err.onlyDefaultOnThisVersion) ∧
    (∀ l : List LiquidityPoolType,
      (∀ k, ∀ h : k < l.length, (l.get ⟨k, h⟩).PoolTypeIndex = k + 1) → l.length < 1 →
      validateLiquidityPoolTypes (Value.poolTypes (some l)) = some Err.needDefaultPoolType) ∧
    validateLiquidityPoolTypes (Value.poolTypes (some [])) = some Err.needDefaultPoolType ∧
    (∀ t : LiquidityPoolType, t.PoolTypeIndex = 1 → t ≠ DefaultLiquidityPoolType →
      validateLiquidityPoolTypes (Value.poolTypes (some [t])) = some Err.onlyDefaultAllowed) ∧
    (∀ l : List LiquidityPoolType, 1 < l.length →
      (validateLiquidityPoolTypes (Value.poolTypes (some l)) =
          some Err.onlyDefaultOnThisVersion ↔
        ∀ k, ∀ h : k < l.length, (l.get ⟨k, h⟩).PoolTypeIndex = k + 1) ∧
      (validateLiquidityPoolTypes (Value.poolTypes (some l)) = some Err.indexMustBeSorted ↔
        ¬ ∀ k, ∀ h : k < l.length, (l.get ⟨k, h⟩).PoolTypeIndex = k + 1)) ∧
    validateLiquidityPoolTypes
        (Value.poolTypes (some [DefaultLiquidityPoolType, DefaultLiquidityPoolType])) =
      some Err.indexMustBeSorted ∧
    validateLiquidityPoolTypes
        (Value.poolTypes (some [⟨0, "DefaultPoolType", MinReserveCoinNum, MaxReserveCoinNum⟩,
          DefaultLiquidityPoolType])) =
      some Err.indexMustBeSorted := by
  have sorted_iff : ∀ l : List LiquidityPoolType,
      indexLoop 0 l = none ↔ ∀ k, ∀ h : k < l.length, (l.get ⟨k, h⟩).PoolTypeIndex = k + 1 := by
    intro l
    rw [indexLoop_eq_none_iff]
    simp only [Nat.zero_add]
  have unsorted : ∀ l : List LiquidityPoolType,
      (¬ ∀ k, ∀ h : k < l.length, (l.get ⟨k, h⟩).PoolTypeIndex = k + 1) →
      validateLiquidityPoolTypes (Value.poolTypes (some l)) = some Err.indexMustBeSorted := by
    intro l hl
    rw [validateLiquidityPoolTypes_poolTypes]
    simp only
    rw [if_pos]
    rw [Ne, sorted_iff]
    exact hl
  have sorted_long : ∀ l : List LiquidityPoolType,
      (∀ k, ∀ h : k < l.length, (l.get ⟨k, h⟩).PoolTypeIndex = k + 1) → 1 < l.length →
      validateLiquidityPoolTypes (Value.poolTypes (some l)) =
        some Err.onlyDefaultOnThisVersion := by
    intro l hl hlen
    rw [validateLiquidityPoolTypes_poolTypes]
    simp only
    rw [if_neg (by rw [Ne, sorted_iff]; exact fun h => h hl), if_pos hlen]
  refine ⟨rfl, ?_, sorted_long, ?_, rfl, ?_, ?_, by decide, by decide⟩
  · rintro l ⟨k, hk, hne⟩
    exact unsorted l (fun h => hne (h k hk))
  · intro l hl hlen
    rw [validateLiquidityPoolTypes_poolTypes]
    simp only
    rw [if_neg (by rw [Ne, sorted_iff]; exact fun h => h hl), if_neg (by omega), if_pos hlen]
  · intro t hidx ht
    rw [validateLiquidityPoolTypes_poolTypes]
    simp only
    rw [if_neg (by simp [indexLoop, hidx]), if_neg (by simp), if_neg (by simp), if_pos (by simpa using ht)]
  · intro l hlen
    by_cases hl : ∀ k, ∀ h : k < l.length, (l.get ⟨k, h⟩).PoolTypeIndex = k + 1
    · rw [sorted_long l hl hlen]
      exact ⟨⟨fun _ => hl, fun _ => rfl⟩, ⟨fun h => (by cases h), fun h => absurd hl h⟩⟩
    · rw [unsorted l hl]
      exact ⟨⟨fun h => (by cases h), fun h => absurd h hl⟩, ⟨fun _ => hl, fun _ => rfl⟩⟩

/-! ## C5 and C6: the numeric ranges -/

/-- C5: for every integer v, `validateInitPoolCoinMintAmount(v)` fails with NotPositive
if and only if v ≤ 0, fails with BelowFloor if and only if 0 < v < 1,000,000 (the default
mint amount), and succeeds if and only if v ≥ 1,000,000; so 1,000,000 succeeds, 999,999
fails with BelowFloor, and 0, -1 and 10 are rejected. -/
theorem validateInitPoolCoinMintAmount_ranges (v : Int) :
    DefaultInitPoolCoinMintAmount = 1000000 ∧
    (validateInitPoolCoinMintAmount (Value.int v) = some (Err.mintAmountMustBePositive v) ↔
      v ≤ 0) ∧
    (validateInitPoolCoinMintAmount (Value.int v) = some (Err.mintAmountShouldOverDefault v) ↔
      0 < v ∧ v < DefaultInitPoolCoinMintAmount) ∧
    (validateInitPoolCoinMintAmount (Value.int v) = none ↔
      DefaultInitPoolCoinMintAmount ≤ v) ∧
    validateInitPoolCoinMintAmount (Value.int 1000000) = none ∧
    validateInitPoolCoinMintAmount (Value.int 999999) =
      some (Err.mintAmountShouldOverDefault 999999) ∧
    validateInitPoolCoinMintAmount (Value.int 0) = some (Err.mintAmountMustBePositive 0) ∧
    validateInitPoolCoinMintAmount (Value.int (-1)) =
      some (Err.mintAmountMustBePositive (-1)) ∧
    validateInitPoolCoinMintAmount (Value.int 10) =
      some (Err.mintAmountShouldOverDefault 10) := by
  refine ⟨rfl, ?_, ?_, ?_, by decide, by decide, by decide, by decide, by decide⟩
  · rw [validateInitPoolCoinMintAmount_int]
    split
    · rename_i h
      simp [h]
    · rename_i h
      split <;> simp [h]
  · rw [validateInitPoolCoinMintAmount_int]
    unfold DefaultInitPoolCoinMintAmount
    split
    · rename_i h
      simp only [Option.some.injEq, reduceCtorEq, false_iff]
      omega
    · rename_i h
      split
      · rename_i h1
        simp only [true_iff]
        omega
      · rename_i h1
        simp only [reduceCtorEq, false_iff]
        omega
  · exact validateInitPoolCoinMintAmount_eq_none_iff v

/-- C6: for every 18-decimal fixed-point value v, `validateSwapFeeRate(v)` fails with
Negative if and only if v < 0, fails with TooLarge if and only if v > 1, and succeeds if
and only if 0 ≤ v ≤ 1, both boundaries accepted; so 1.0 succeeds, 1.000000000000000001
fails with TooLarge, -0.000000000000000001 fails with Negative, and -1 and 2 are
rejected. -/
theorem validateSwapFeeRate_ranges (v : Dec) :
    (validateSwapFeeRate (Value.dec v) = some (Err.swapFeeRateNegative v) ↔ v.toRat < 0) ∧
    (validateSwapFeeRate (Value.dec v) = some (Err.swapFeeRateTooLarge v) ↔ 1 < v.toRat) ∧
    (validateSwapFeeRate (Value.dec v) = none ↔ 0 ≤ v.toRat ∧ v.toRat ≤ 1) ∧
    validateSwapFeeRate (Value.dec (NewDec 0)) = none ∧
    validateSwapFeeRate (Value.dec (NewDec 1)) = none ∧
    validateSwapFeeRate (Value.dec ⟨1000000000000000001⟩) =
      some (Err.swapFeeRateTooLarge ⟨1000000000000000001⟩) ∧
    validateSwapFeeRate (Value.dec ⟨-1⟩) = some (Err.swapFeeRateNegative ⟨-1⟩) ∧
    validateSwapFeeRate (Value.dec (NewDec (-1))) =
      some (Err.swapFeeRateNegative (NewDec (-1))) ∧
    validateSwapFeeRate (Value.dec (NewDec 2)) = some (Err.swapFeeRateTooLarge (NewDec 2)) ∧
    (NewDec 0).toRat = 0 ∧ (NewDec 1).toRat = 1 ∧ (NewDec (-1)).toRat = -1 ∧
    (NewDec 2).toRat = 2 ∧
    (Dec.mk 1000000000000000001).toRat = 1 + 1 / 10 ^ 18 ∧
    (Dec.mk (-1)).toRat = -(1 / 10 ^ 18) := by
  refine ⟨?_, ?_, validateSwapFeeRate_eq_none_iff v, by decide, by decide, by decide,
    by decide, by decide, by decide, ?_, ?_, ?_, ?_, ?_, ?_⟩
  · rw [validateSwapFeeRate_dec]
    split
    · rename_i h
      simp [h]
    · rename_i h
      split <;> simp [h]
  · rw [validateSwapFeeRate_dec]
    split
    · rename_i h
      have : ¬ (1 < v.toRat) := by linarith
      simp [this]
    · rename_i h
      split
      · rename_i h1
        simp [h1]
      · rename_i h1
        simp [h1]
  all_goals (simp only [Dec.toRat, NewDec, Precision]; norm_num)

/-! ## C7 and C8: the minimum deposit -/

/-- C7 fails as stated: on a parameter set whose minimum deposit is 0 and whose pool-type
list is nil, `Validate` returns the pool-type error (EmptyConfiguration), not the
NotPositive error of the minimum deposit. -/
theorem Params.Validate_minInitDeposit_counterexample :
    nilPoolTypesZeroDeposit.MinInitDepositToPool ≤ 0 ∧
    (∀ cv : Coins → Option CoinsErr,
      nilPoolTypesZeroDeposit.Validate cv = some Err.emptyParameter) ∧
    (∀ cv : Coins → Option CoinsErr, ∀ v : Int,
      nilPoolTypesZeroDeposit.Validate cv ≠ some (Err.minInitDepositMustBePositive v)) := by
  refine ⟨by decide, fun cv => rfl, fun cv v h => ?_⟩
  have h2 : nilPoolTypesZeroDeposit.Validate cv = some Err.emptyParameter := rfl
  rw [h2] at h
  cases h

/-- C7, amended: for every `Params` p with `MinInitDepositToPool` ≤ 0, `p.Validate()`
fails; the error is the NotPositive error of the minimum deposit when the pool-type list
is valid, and the error of the pool-type validator otherwise. -/
theorem Params.Validate_minInitDeposit_not_positive (cv : Coins → Option CoinsErr) (p : Params)
    (h : p.MinInitDepositToPool ≤ 0) :
    p.Validate cv ≠ none ∧
    (p.LiquidityPoolTypes = some [DefaultLiquidityPoolType] →
      p.Validate cv = some (Err.minInitDepositMustBePositive p.MinInitDepositToPool)) ∧
    (p.LiquidityPoolTypes ≠ some [DefaultLiquidityPoolType] →
      validateLiquidityPoolTypes (Value.poolTypes p.LiquidityPoolTypes) ≠ none ∧
      p.Validate cv = validateLiquidityPoolTypes (Value.poolTypes p.LiquidityPoolTypes)) := by
  have hmin : validateMinInitDepositToPool (Value.int p.MinInitDepositToPool) =
      some (Err.minInitDepositMustBePositive p.MinInitDepositToPool) := by
    rw [validateMinInitDepositToPool_int, if_pos h]
  refine ⟨?_, ?_, ?_⟩
  · intro hv
    rw [Params.Validate_eq_none] at hv
    rw [hv.2.1] at hmin
    cases hmin
  · intro hp
    have h1 := (validateLiquidityPoolTypes_eq_none_iff p.LiquidityPoolTypes).2 hp
    unfold Params.Validate
    rw [h1, hmin]
  · intro hp
    have h1 : validateLiquidityPoolTypes (Value.poolTypes p.LiquidityPoolTypes) ≠ none :=
      fun hn => hp ((validateLiquidityPoolTypes_eq_none_iff p.LiquidityPoolTypes).1 hn)
    refine ⟨h1, ?_⟩
    cases hv : validateLiquidityPoolTypes (Value.poolTypes p.LiquidityPoolTypes) with
    | none => exact absurd hv h1
    | some e => exact Params.Validate_of_poolTypes_err cv p e hv

/-- Instance of the amended C7 at the default parameters with a zero minimum deposit. -/
theorem Params.Validate_minInitDeposit_not_positive_witness :
    zeroDepositParams.MinInitDepositToPool ≤ 0 ∧
    (zeroDepositParams.Validate (Coins.Validate sampleValidDenom) ≠ none ∧
      (zeroDepositParams.LiquidityPoolTypes = some [DefaultLiquidityPoolType] →
        zeroDepositParams.Validate (Coins.Validate sampleValidDenom) =
          some (Err.minInitDepositMustBePositive zeroDepositParams.MinInitDepositToPool)) ∧
      (zeroDepositParams.LiquidityPoolTypes ≠ some [DefaultLiquidityPoolType] →
        validateLiquidityPoolTypes (Value.poolTypes zeroDepositParams.LiquidityPoolTypes) ≠
            none ∧
          zeroDepositParams.Validate (Coins.Validate sampleValidDenom) =
            validateLiquidityPoolTypes
              (Value.poolTypes zeroDepositParams.LiquidityPoolTypes))) :=
  ⟨by decide,
    Params.Validate_minInitDeposit_not_positive (Coins.Validate sampleValidDenom)
      zeroDepositParams (by decide)⟩

/-- C8: for every integer v, `validateMinInitDepositToPool(v)` succeeds if and only if
v > 0 and otherwise fails with NotPositive; there is no upper bound and no other floor:
1 is accepted, 0 and -1 are rejected. -/
theorem validateMinInitDepositToPool_positive_iff (v : Int) :
    (validateMinInitDepositToPool (Value.int v) = none ↔ 0 < v) ∧
    (validateMinInitDepositToPool (Value.int v) = some (Err.minInitDepositMustBePositive v) ↔
      v ≤ 0) ∧
    (∀ w : Int, v ≤ w → validateMinInitDepositToPool (Value.int v) = none →
      validateMinInitDepositToPool (Value.int w) = none) ∧
    validateMinInitDepositToPool (Value.int 1) = none ∧
    validateMinInitDepositToPool (Value.int 0) =
      some (Err.minInitDepositMustBePositive 0) ∧
    validateMinInitDepositToPool (Value.int (-1)) =
      some (Err.minInitDepositMustBePositive (-1)) := by
  refine ⟨validateMinInitDepositToPool_eq_none_iff v, ?_, ?_, by decide, by decide, by decide⟩
  · rw [validateMinInitDepositToPool_int]
    split
    · rename_i h
      simp [h]
    · rename_i h
      simp [h]
  · intro w hw hv
    rw [validateMinInitDepositToPool_eq_none_iff] at hv ⊢
    omega

/-! ## C9 and C10: the creation fee -/

theorem coinsValidateLoop_eq_none (vd : String → Bool) (low : String) (seen : List String)
    (rest : List Coin) (h : coinsValidateLoop vd low seen rest = none) :
    (∀ coin ∈ rest, vd coin.Denom = true ∧ 0 < coin.Amount) ∧
      List.Chain (fun a b : String => a < b) low (rest.map Coin.Denom) := by
  induction rest generalizing low seen with
  | nil => simp
  | cons c rest ih =>
    unfold coinsValidateLoop at h
    split at h
    · cases h
    · split at h
      · cases h
      · split at h
        · cases h
        · split at h
          · cases h
          · rename_i _ hvd hle hpos
            have hvd1 : vd c.Denom = true := by simpa using hvd
            have hpos1 : 0 < c.Amount := by
              simpa [Coin.IsPositive, IsPositive] using hpos
            have hlt : low < c.Denom := not_le.1 hle
            obtain ⟨hall, hchain⟩ := ih c.Denom (c.Denom :: seen) h
            refine ⟨?_, ?_⟩
            · intro coin hmem
              rcases List.mem_cons.1 hmem with heq | hin
              · subst heq
                exact ⟨hvd1, hpos1⟩
              · exact hall coin hin
            · rw [List.map_cons]
              exact List.Chain.cons hlt hchain

/-- What an accepted coin bag satisfies: every denomination passes the syntax check,
every amount is positive, and the denominations increase strictly. -/
theorem Coins.Validate_accepted_wellFormed (vd : String → Bool) (c : Coins)
    (h : Coins.Validate vd c = none) :
    (∀ coin ∈ c.elems, vd coin.Denom = true ∧ 0 < coin.Amount) ∧
      (c.elems.map Coin.Denom).Pairwise (fun a b : String => a < b) := by
  unfold Coins.Validate at h
  cases hc : c.elems with
  | nil => simp
  | cons c0 rest =>
    rw [hc] at h
    simp only at h
    split at h
    · cases h
    · split at h
      · cases h
      · rename_i hvd hpos
        have hvd1 : vd c0.Denom = true := by simpa using hvd
        have hpos1 : 0 < c0.Amount := by
          simpa [Coin.IsPositive, IsPositive] using hpos
        obtain ⟨hall, hchain⟩ := coinsValidateLoop_eq_none vd c0.Denom [c0.Denom] rest h
        refine ⟨?_, ?_⟩
        · intro coin hmem
          rcases List.mem_cons.1 hmem with heq | hin
          · subst heq
            exact ⟨hvd1, hpos1⟩
          · exact hall coin hin
        · rw [List.map_cons]
          exact List.chain_iff_pairwise.1 hchain

/-- A coin bag holding a denomination that fails the syntax check is rejected. -/
theorem Coins.Validate_invalidDenom (vd : String → Bool) (c : Coins)
    (h : ∃ coin ∈ c.elems, vd coin.Denom = false) : Coins.Validate vd c ≠ none := by
  intro hv
  obtain ⟨coin, hmem, hbad⟩ := h
  have := ((Coins.Validate_accepted_wellFormed vd c hv).1 coin hmem).1
  rw [hbad] at this
  cases this

/-- C9: for every coin bag c, `validateLiquidityPoolCreationFee(c)` first runs the
well-formedness check of the bag and returns its error as it is; when the check passes
and c has no entries (nil or empty) it fails with EmptyFee; otherwise it succeeds. So it
succeeds if and only if c is well-formed and non-empty, and `Params.Validate` rejects
every `Params` whose creation fee is empty or holds a syntactically invalid denomination,
such as the single coin of denomination "invalid denom---" and amount 0. -/
theorem validateLiquidityPoolCreationFee_cases (cv : Coins → Option CoinsErr)
    (vd : String → Bool) (c : Coins) :
    (∀ e, cv c = some e →
      validateLiquidityPoolCreationFee cv (Value.coins c) = some (Err.coins e)) ∧
    (cv c = none → c.len = 0 →
      validateLiquidityPoolCreationFee cv (Value.coins c) = some (Err.creationFeeEmpty c)) ∧
    (cv c = none → c.len ≠ 0 → validateLiquidityPoolCreationFee cv (Value.coins c) = none) ∧
    (validateLiquidityPoolCreationFee cv (Value.coins c) = none ↔ cv c = none ∧ c.len ≠ 0) ∧
    validateLiquidityPoolCreationFee (Coins.Validate vd) (Value.coins none) =
      some (Err.creationFeeEmpty none) ∧
    validateLiquidityPoolCreationFee (Coins.Validate vd) (Value.coins (some [])) =
      some (Err.creationFeeEmpty (some [])) ∧
    (∀ p : Params, p.LiquidityPoolCreationFee = c → c.len = 0 → p.Validate cv ≠ none) ∧
    (∀ p : Params, p.LiquidityPoolCreationFee = c → cv c ≠ none → p.Validate cv ≠ none) ∧
    (∀ p : Params, p.LiquidityPoolCreationFee = c →
      (∃ coin ∈ c.elems, vd coin.Denom = false) → p.Validate (Coins.Validate vd) ≠ none) ∧
    (vd "invalid denom---" = false →
      ∀ p : Params, p.LiquidityPoolCreationFee = some [⟨"invalid denom---", 0⟩] →
        p.Validate (Coins.Validate vd) ≠ none) ∧
    (sampleValidDenom "invalid denom---" = false ∧
      ∀ p : Params, p.LiquidityPoolCreationFee = some [⟨"invalid denom---", 0⟩] →
        p.Validate (Coins.Validate sampleValidDenom) ≠ none) := by
  have hfee := validateLiquidityPoolCreationFee_coins cv c
  have htest : ∀ w : String → Bool, w "invalid denom---" = false →
      ∀ p : Params, p.LiquidityPoolCreationFee = some [⟨"invalid denom---", 0⟩] →
        p.Validate (Coins.Validate w) ≠ none := by
    intro w hw p hp hv
    rw [Params.Validate_eq_none, hp, validateLiquidityPoolCreationFee_eq_none_iff] at hv
    refine Coins.Validate_invalidDenom w _ ⟨⟨"invalid denom---", 0⟩, ?_, hw⟩ hv.2.2.2.2.1
    simp [Slice.elems]
  refine ⟨?_, ?_, ?_, validateLiquidityPoolCreationFee_eq_none_iff cv c, rfl, rfl, ?_, ?_, ?_,
    htest vd, by decide, htest sampleValidDenom (by decide)⟩
  · intro e he
    rw [hfee, he]
  · intro h0 hlen
    rw [hfee, h0]
    simp [hlen]
  · intro h0 hlen
    rw [hfee, h0]
    simp [hlen]
  · intro p hp hlen hv
    rw [Params.Validate_eq_none, hp, validateLiquidityPoolCreationFee_eq_none_iff] at hv
    exact hv.2.2.2.2.2 hlen
  · intro p hp hc hv
    rw [Params.Validate_eq_none, hp, validateLiquidityPoolCreationFee_eq_none_iff] at hv
    exact hc hv.2.2.2.2.1
  · intro p hp hbad hv
    rw [Params.Validate_eq_none, hp, validateLiquidityPoolCreationFee_eq_none_iff] at hv
    exact Coins.Validate_invalidDenom vd c hbad hv.2.2.2.2.1

/-- C10: for every `Params` p accepted by `p.Validate()`, the creation fee is a non-empty
bag in which every entry has a syntactically valid denomination and a strictly positive
amount, and the denominations increase strictly, without duplicates. -/
theorem Params.Validate_creationFee_wellFormed (vd : String → Bool) (p : Params)
    (h : p.Validate (Coins.Validate vd) = none) :
    p.LiquidityPoolCreationFee.len ≠ 0 ∧
    (∀ coin ∈ p.LiquidityPoolCreationFee.elems, vd coin.Denom = true ∧ 0 < coin.Amount) ∧
    (p.LiquidityPoolCreationFee.elems.map Coin.Denom).Pairwise (fun a b : String => a < b) ∧
    (p.LiquidityPoolCreationFee.elems.map Coin.Denom).Nodup := by
  rw [Params.Validate_eq_none, validateLiquidityPoolCreationFee_eq_none_iff] at h
  obtain ⟨hall, hsorted⟩ := Coins.Validate_accepted_wellFormed vd _ h.2.2.2.2.1
  exact ⟨h.2.2.2.2.2, hall, hsorted, hsorted.imp (fun hab => ne_of_lt hab)⟩

/-- The library check on two-coin bags: sorted accepted, unsorted and duplicate rejected. -/
theorem Coins.Validate_twoCoins :
    Coins.Validate sampleValidDenom (some [⟨"atom", 5⟩, ⟨"stake", 100000000⟩]) = none ∧
    Coins.Validate sampleValidDenom (some [⟨"stake", 100000000⟩, ⟨"atom", 5⟩]) =
      some (CoinsErr.notSorted "atom") ∧
    Coins.Validate sampleValidDenom (some [⟨"stake", 1⟩, ⟨"stake", 5⟩]) =
      some (CoinsErr.duplicateDenom "stake") := by
  have h1 : ¬ (("stake" : String) ≤ "atom") := by
    rw [not_le, String.lt_iff_toList_lt]; decide
  have h2 : (("atom" : String) ≤ "stake") := le_of_lt (not_le.1 h1)
  have h3 : sampleValidDenom "atom" = true := by decide
  have h4 : sampleValidDenom "stake" = true := by decide
  refine ⟨?_, ?_, ?_⟩ <;>
    simp [Coins.Validate, Slice.elems, coinsValidateLoop, h1, h2, h3, h4, Coin.IsPositive,
      IsPositive]

theorem twoCoinFeeParams_accepted :
    twoCoinFeeParams.Validate (Coins.Validate sampleValidDenom) = none := by
  rw [Params.Validate_eq_none]
  refine ⟨by decide, by decide, by decide, by decide, ?_⟩
  rw [validateLiquidityPoolCreationFee_eq_none_iff]
  exact ⟨Coins.Validate_twoCoins.1, by decide⟩

/-- Instance of C10 at the default parameters with a fee of two coins, which are accepted;
the default parameters are accepted too, and with a fee of amount 0 in the valid bond
denomination they are rejected. -/
theorem Params.Validate_creationFee_wellFormed_witness :
    twoCoinFeeParams.Validate (Coins.Validate sampleValidDenom) = none ∧
    (twoCoinFeeParams.LiquidityPoolCreationFee.len ≠ 0 ∧
      (∀ coin ∈ twoCoinFeeParams.LiquidityPoolCreationFee.elems,
        sampleValidDenom coin.Denom = true ∧ 0 < coin.Amount) ∧
      (twoCoinFeeParams.LiquidityPoolCreationFee.elems.map Coin.Denom).Pairwise
        (fun a b : String => a < b) ∧
      (twoCoinFeeParams.LiquidityPoolCreationFee.elems.map Coin.Denom).Nodup) ∧
    DefaultParams.Validate (Coins.Validate sampleValidDenom) = none ∧
    sampleValidDenom DefaultBondDenom = true ∧
    zeroFeeParams.Validate (Coins.Validate sampleValidDenom) =
      some (Err.coins (CoinsErr.notPositive ⟨DefaultBondDenom, 0⟩)) :=
  ⟨twoCoinFeeParams_accepted,
    Params.Validate_creationFee_wellFormed sampleValidDenom twoCoinFeeParams
      twoCoinFeeParams_accepted,
    by decide, by decide, by decide⟩

/-! ## C11: the default parameters -/

/-- The default parameters pass every validator once the library accepts the default
creation fee. -/
theorem DefaultParams_accepted (cv : Coins → Option CoinsErr)
    (h : cv DefaultLiquidityPoolCreationFee = none) : DefaultParams.Validate cv = none := by
  rw [Params.Validate_eq_none]
  refine ⟨by decide, by decide, by decide, by decide, ?_⟩
  rw [validateLiquidityPoolCreationFee_eq_none_iff]
  exact ⟨h, by decide⟩

/-- The library check accepts the default creation fee when the bond denomination passes
the syntax check. -/
theorem Coins.Validate_default (vd : String → Bool) (h : vd DefaultBondDenom = true) :
    Coins.Validate vd DefaultLiquidityPoolCreationFee = none := by
  simp [Coins.Validate, DefaultLiquidityPoolCreationFee, NewCoins, Slice.elems, h,
    Coin.IsPositive, IsPositive, coinsValidateLoop]

/-- C11: `DefaultParams()` returns the documented defaults: the pool types are the
one-element list of the default pool type (index 1, name "DefaultPoolType", reserve coin
numbers 2 and 2), the minimum deposit and the mint amount are 1,000,000, the swap fee rate
is 0.003, the creation fee is 100,000,000 of the bond denomination; and
`DefaultParams().Validate()` returns nil. -/
theorem DefaultParams_documented_and_valid :
    DefaultParams.LiquidityPoolTypes = some [DefaultLiquidityPoolType] ∧
    DefaultLiquidityPoolType = ⟨1, "DefaultPoolType", 2, 2⟩ ∧
    DefaultParams.MinInitDepositToPool = 1000000 ∧
    DefaultParams.InitPoolCoinMintAmount = 1000000 ∧
    DefaultParams.SwapFeeRate.toRat = 3 / 1000 ∧
    DefaultParams.LiquidityPoolCreationFee = some [⟨DefaultBondDenom, 100000000⟩] ∧
    (∀ cv : Coins → Option CoinsErr, cv DefaultParams.LiquidityPoolCreationFee = none →
      DefaultParams.Validate cv = none) ∧
    (∀ vd : String → Bool, vd DefaultBondDenom = true →
      DefaultParams.Validate (Coins.Validate vd) = none) ∧
    sampleValidDenom DefaultBondDenom = true ∧
    DefaultParams.Validate (Coins.Validate sampleValidDenom) = none := by
  refine ⟨rfl, rfl, rfl, rfl, ?_, rfl, ?_, ?_, by decide, by decide⟩
  · simp only [DefaultParams, NewParams, DefaultSwapFeeRate, NewDecWithPrec, Dec.toRat,
      Precision]
    norm_num
  · intro cv h
    exact DefaultParams_accepted cv h
  · intro vd h
    exact DefaultParams_accepted _ (Coins.Validate_default vd h)

/-! ## C12: genesis validation -/

/-- C12: for every genesis state s, `ValidateGenesis(s)` first calls
`s.Params.Validate()`: an error e of it is returned as it is, whatever the pool-record
check would say; with valid parameters and valid pool records no error is returned. So a
swap fee rate of -1 or 2 and a mint amount of 0, -1 or 10 make `ValidateGenesis` fail, and
the default parameters and `DefaultGenesisState()` make it succeed. -/
theorem ValidateGenesis_params_first {ρ : Type} (cv : Coins → Option CoinsErr)
    (rv : Slice ρ → Option Err) (s : GenesisState ρ) :
    (∀ e, s.Params.Validate cv = some e →
      ∀ rv2 : Slice ρ → Option Err, ValidateGenesis cv rv2 s = some e) ∧
    (s.Params.Validate cv = none → ValidateGenesis cv rv s = rv s.LiquidityPoolRecords) ∧
    (s.Params.Validate cv = none → rv s.LiquidityPoolRecords = none →
      ValidateGenesis cv rv s = none) ∧
    (ValidateGenesis cv rv s = none ↔
      s.Params.Validate cv = none ∧ rv s.LiquidityPoolRecords = none) ∧
    (∀ records : Slice ρ,
      ValidateGenesis cv rv
          (NewGenesisState { DefaultParams with SwapFeeRate := NewDec (-1) } records) =
        some (Err.swapFeeRateNegative (NewDec (-1))) ∧
      ValidateGenesis cv rv
          (NewGenesisState { DefaultParams with SwapFeeRate := NewDec 2 } records) =
        some (Err.swapFeeRateTooLarge (NewDec 2)) ∧
      ValidateGenesis cv rv
          (NewGenesisState { DefaultParams with InitPoolCoinMintAmount := 0 } records) =
        some (Err.mintAmountMustBePositive 0) ∧
      ValidateGenesis cv rv
          (NewGenesisState { DefaultParams with InitPoolCoinMintAmount := -1 } records) =
        some (Err.mintAmountMustBePositive (-1)) ∧
      ValidateGenesis cv rv
          (NewGenesisState { DefaultParams with InitPoolCoinMintAmount := 10 } records) =
        some (Err.mintAmountShouldOverDefault 10)) ∧
    (cv DefaultLiquidityPoolCreationFee = none →
      (∀ records : Slice ρ, rv records = none →
        ValidateGenesis cv rv (NewGenesisState DefaultParams records) = none) ∧
      (rv (some []) = none → ValidateGenesis cv rv DefaultGenesisState = none)) ∧
    ValidateGenesis (Coins.Validate sampleValidDenom) (fun _ : Slice ρ => none)
      DefaultGenesisState = none := by
  have hdef : ∀ (c : Coins → Option CoinsErr) (r : Slice ρ → Option Err) (records : Slice ρ),
      c DefaultLiquidityPoolCreationFee = none → r records = none →
      ValidateGenesis c r (NewGenesisState DefaultParams records) = none := by
    intro c r records hc hr
    simp only [ValidateGenesis, NewGenesisState, DefaultParams_accepted c hc, hr]
  refine ⟨?_, ?_, ?_, ?_, ?_, ?_, ?_⟩
  · intro e he rv2
    simp only [ValidateGenesis, he]
  · intro h
    simp only [ValidateGenesis, h]
  · intro h hr
    simp only [ValidateGenesis, h, hr]
  · unfold ValidateGenesis
    cases s.Params.Validate cv with
    | none => simp
    | some e => simp
  · intro records
    exact ⟨rfl, rfl, rfl, rfl, rfl⟩
  · intro hc
    exact ⟨fun records hr => hdef cv rv records hc hr, fun hr => hdef cv rv (some []) hc hr⟩
  · exact hdef _ _ (some []) (Coins.Validate_default sampleValidDenom (by decide)) rfl

/-! ## C13 and C16: the type check -/

/-- On a pool-type slice the pool-type validator never reports a type mismatch. -/
theorem validateLiquidityPoolTypes_poolTypes_ne (v : Slice LiquidityPoolType) (n : String) :
    validateLiquidityPoolTypes (Value.poolTypes v) ≠ some (Err.invalidParameterType n) := by
  rw [validateLiquidityPoolTypes_poolTypes]
  cases v with
  | none => simp
  | some l =>
    simp only
    split
    · simp
    · split
      · simp
      · split
        · simp
        · split <;> simp

/-- On an integer the minimum-deposit validator never reports a type mismatch. -/
theorem validateMinInitDepositToPool_int_ne (v : Int) (n : String) :
    validateMinInitDepositToPool (Value.int v) ≠ some (Err.invalidParameterType n) := by
  rw [validateMinInitDepositToPool_int]
  split <;> simp

/-- On an integer the mint-amount validator never reports a type mismatch. -/
theorem validateInitPoolCoinMintAmount_int_ne (v : Int) (n : String) :
    validateInitPoolCoinMintAmount (Value.int v) ≠ some (Err.invalidParameterType n) := by
  rw [validateInitPoolCoinMintAmount_int]
  split
  · simp
  · split <;> simp

/-- On a decimal the swap-fee validator never reports a type mismatch. -/
theorem validateSwapFeeRate_dec_ne (v : Dec) (n : String) :
    validateSwapFeeRate (Value.dec v) ≠ some (Err.invalidParameterType n) := by
  rw [validateSwapFeeRate_dec]
  split
  · simp
  · split <;> simp

/-- On a coin bag the creation-fee validator never reports a type mismatch. -/
theorem validateLiquidityPoolCreationFee_coins_ne (cv : Coins → Option CoinsErr) (c : Coins)
    (n : String) :
    validateLiquidityPoolCreationFee cv (Value.coins c) ≠ some (Err.invalidParameterType n) := by
  rw [validateLiquidityPoolCreationFee_coins]
  cases cv c with
  | some e => simp
  | none =>
    simp only
    split <;> simp

/-- C13: each of the five field validators, given a value of any dynamic type, fails with
TypeMismatch ("invalid parameter type") if and only if the dynamic type is not the type
the field expects, and the check comes before every range or shape check: an `sdk.Int`
given to `validateSwapFeeRate`, or an `sdk.Dec` given to `validateMinInitDepositToPool`,
is rejected with TypeMismatch whatever its numeric value. -/
theorem validators_typeMismatch_iff (cv : Coins → Option CoinsErr) (i : Value) :
    ((∃ n, validateLiquidityPoolTypes i = some (Err.invalidParameterType n)) ↔
      ∀ v, i ≠ Value.poolTypes v) ∧
    ((∃ n, validateMinInitDepositToPool i = some (Err.invalidParameterType n)) ↔
      ∀ v, i ≠ Value.int v) ∧
    ((∃ n, validateInitPoolCoinMintAmount i = some (Err.invalidParameterType n)) ↔
      ∀ v, i ≠ Value.int v) ∧
    ((∃ n, validateSwapFeeRate i = some (Err.invalidParameterType n)) ↔
      ∀ v, i ≠ Value.dec v) ∧
    ((∃ n, validateLiquidityPoolCreationFee cv i = some (Err.invalidParameterType n)) ↔
      ∀ v, i ≠ Value.coins v) ∧
    ((∀ v, i ≠ Value.poolTypes v) →
      validateLiquidityPoolTypes i = some (Err.invalidParameterType i.typeName)) ∧
    ((∀ v, i ≠ Value.int v) →
      validateMinInitDepositToPool i = some (Err.invalidParameterType i.typeName) ∧
      validateInitPoolCoinMintAmount i = some (Err.invalidParameterType i.typeName)) ∧
    ((∀ v, i ≠ Value.dec v) →
      validateSwapFeeRate i = some (Err.invalidParameterType i.typeName)) ∧
    ((∀ v, i ≠ Value.coins v) →
      validateLiquidityPoolCreationFee cv i = some (Err.invalidParameterType i.typeName)) ∧
    (∀ v : Int,
      validateSwapFeeRate (Value.int v) = some (Err.invalidParameterType "types.Int")) ∧
    (∀ d : Dec,
      validateMinInitDepositToPool (Value.dec d) =
        some (Err.invalidParameterType "types.Dec")) := by
  refine ⟨?_, ?_, ?_, ?_, ?_, ?_, ?_, ?_, ?_, fun _ => rfl, fun _ => rfl⟩
  · cases i with
    | poolTypes v =>
      constructor
      · rintro ⟨n, hn⟩
        exact absurd hn (validateLiquidityPoolTypes_poolTypes_ne v n)
      · intro h
        exact absurd rfl (h v)
    | int v => exact ⟨fun _ w hw => (by cases hw), fun _ => ⟨_, rfl⟩⟩
    | dec v => exact ⟨fun _ w hw => (by cases hw), fun _ => ⟨_, rfl⟩⟩
    | coins v => exact ⟨fun _ w hw => (by cases hw), fun _ => ⟨_, rfl⟩⟩
    | other t => exact ⟨fun _ w hw => (by cases hw), fun _ => ⟨_, rfl⟩⟩
  · cases i with
    | int v =>
      constructor
      · rintro ⟨n, hn⟩
        exact absurd hn (validateMinInitDepositToPool_int_ne v n)
      · intro h
        exact absurd rfl (h v)
    | poolTypes v => exact ⟨fun _ w hw => (by cases hw), fun _ => ⟨_, rfl⟩⟩
    | dec v => exact ⟨fun _ w hw => (by cases hw), fun _ => ⟨_, rfl⟩⟩
    | coins v => exact ⟨fun _ w hw => (by cases hw), fun _ => ⟨_, rfl⟩⟩
    | other t => exact ⟨fun _ w hw => (by cases hw), fun _ => ⟨_, rfl⟩⟩
  · cases i with
    | int v =>
      constructor
      · rintro ⟨n, hn⟩
        exact absurd hn (validateInitPoolCoinMintAmount_int_ne v n)
      · intro h
        exact absurd rfl (h v)
    | poolTypes v => exact ⟨fun _ w hw => (by cases hw), fun _ => ⟨_, rfl⟩⟩
    | dec v => exact ⟨fun _ w hw => (by cases hw), fun _ => ⟨_, rfl⟩⟩
    | coins v => exact ⟨fun _ w hw => (by cases hw), fun _ => ⟨_, rfl⟩⟩
    | other t => exact ⟨fun _ w hw => (by cases hw), fun _ => ⟨_, rfl⟩⟩
  · cases i with
    | dec v =>
      constructor
      · rintro ⟨n, hn⟩
        exact absurd hn (validateSwapFeeRate_dec_ne v n)
      · intro h
        exact absurd rfl (h v)
    | poolTypes v => exact ⟨fun _ w hw => (by cases hw), fun _ => ⟨_, rfl⟩⟩
    | int v => exact ⟨fun _ w hw => (by cases hw), fun _ => ⟨_, rfl⟩⟩
    | coins v => exact ⟨fun _ w hw => (by cases hw), fun _ => ⟨_, rfl⟩⟩
    | other t => exact ⟨fun _ w hw => (by cases hw), fun _ => ⟨_, rfl⟩⟩
  · cases i with
    | coins v =>
      constructor
      · rintro ⟨n, hn⟩
        exact absurd hn (validateLiquidityPoolCreationFee_coins_ne cv v n)
      · intro h
        exact absurd rfl (h v)
    | poolTypes v => exact ⟨fun _ w hw => (by cases hw), fun _ => ⟨_, rfl⟩⟩
    | int v => exact ⟨fun _ w hw => (by cases hw), fun _ => ⟨_, rfl⟩⟩
    | dec v => exact ⟨fun _ w hw => (by cases hw), fun _ => ⟨_, rfl⟩⟩
    | other t => exact ⟨fun _ w hw => (by cases hw), fun _ => ⟨_, rfl⟩⟩
  · intro h
    cases i with
    | poolTypes v => exact absurd rfl (h v)
    | int v => rfl
    | dec v => rfl
    | coins v => rfl
    | other t => rfl
  · intro h
    cases i with
    | int v => exact absurd rfl (h v)
    | poolTypes v => exact ⟨rfl, rfl⟩
    | dec v => exact ⟨rfl, rfl⟩
    | coins v => exact ⟨rfl, rfl⟩
    | other t => exact ⟨rfl, rfl⟩
  · intro h
    cases i with
    | dec v => exact absurd rfl (h v)
    | poolTypes v => rfl
    | int v => rfl
    | coins v => rfl
    | other t => rfl
  · intro h
    cases i with
    | coins v => exact absurd rfl (h v)
    | poolTypes v => rfl
    | int v => rfl
    | dec v => rfl
    | other t => rfl

/-- C16: the type-mismatch branch of every field validator is unreachable from
`Params.Validate`: for every `Params` p the error of `p.Validate()`, if any, is never a
TypeMismatch ("invalid parameter type") error, since each validator receives the field of
the type it asserts. -/
theorem Params.Validate_never_typeMismatch (cv : Coins → Option CoinsErr) (p : Params)
    (n : String) : p.Validate cv ≠ some (Err.invalidParameterType n) := by
  intro h
  unfold Params.Validate at h
  have h1 := validateLiquidityPoolTypes_poolTypes_ne p.LiquidityPoolTypes n
  have h2 := validateMinInitDepositToPool_int_ne p.MinInitDepositToPool n
  have h3 := validateInitPoolCoinMintAmount_int_ne p.InitPoolCoinMintAmount n
  have h4 := validateSwapFeeRate_dec_ne p.SwapFeeRate n
  have h5 := validateLiquidityPoolCreationFee_coins_ne cv p.LiquidityPoolCreationFee n
  cases hv1 : validateLiquidityPoolTypes (Value.poolTypes p.LiquidityPoolTypes) with
  | some e => rw [hv1] at h h1; exact h1 h
  | none =>
    cases hv2 : validateMinInitDepositToPool (Value.int p.MinInitDepositToPool) with
    | some e => rw [hv1, hv2] at h; rw [hv2] at h2; exact h2 h
    | none =>
      cases hv3 : validateInitPoolCoinMintAmount (Value.int p.InitPoolCoinMintAmount) with
      | some e => rw [hv1, hv2, hv3] at h; rw [hv3] at h3; exact h3 h
      | none =>
        cases hv4 : validateSwapFeeRate (Value.dec p.SwapFeeRate) with
        | some e => rw [hv1, hv2, hv3, hv4] at h; rw [hv4] at h4; exact h4 h
        | none =>
          cases hv5 : validateLiquidityPoolCreationFee cv
              (Value.coins p.LiquidityPoolCreationFee) with
          | some e => rw [hv1, hv2, hv3, hv4, hv5] at h; rw [hv5] at h5; exact h5 h
          | none => rw [hv1, hv2, hv3, hv4, hv5] at h; cases h

/-! ## C14: a single pool type that is not the default -/

/-- C14 fails as stated: the pool type with reserve coin numbers 2 and 2, the default name
and index 2 is rejected by the index check of the loop (IndexNotSorted), which runs before
the comparison with the default pool type, not by that comparison (NotDefaultType). -/
theorem validateLiquidityPoolTypes_reindexed_counterexample :
    reindexedPoolType.MinReserveCoinNum = 2 ∧ reindexedPoolType.MaxReserveCoinNum = 2 ∧
    reindexedPoolType.PoolTypeIndex ≠ 1 ∧
    validateLiquidityPoolTypes (Value.poolTypes (some [reindexedPoolType])) =
      some Err.indexMustBeSorted ∧
    validateLiquidityPoolTypes (Value.poolTypes (some [reindexedPoolType])) ≠
      some Err.onlyDefaultAllowed := by
  decide

/-- C14, amended: for every pool type t whose reserve coin numbers are both 2 but whose
name differs from "DefaultPoolType" or whose index differs from 1,
`validateLiquidityPoolTypes([t])` fails; the failure is the NotDefaultType error of the
comparison with the default pool type when the index is 1, and the IndexNotSorted error
of the index check when the index differs from 1. -/
theorem validateLiquidityPoolTypes_single_not_default (t : LiquidityPoolType)
    (hmin : t.MinReserveCoinNum = 2) (hmax : t.MaxReserveCoinNum = 2)
    (hne : t.Name ≠ "DefaultPoolType" ∨ t.PoolTypeIndex ≠ 1) :
    validateLiquidityPoolTypes (Value.poolTypes (some [t])) ≠ none ∧
    (t.PoolTypeIndex = 1 →
      validateLiquidityPoolTypes (Value.poolTypes (some [t])) = some Err.onlyDefaultAllowed) ∧
    (t.PoolTypeIndex ≠ 1 →
      validateLiquidityPoolTypes (Value.poolTypes (some [t])) = some Err.indexMustBeSorted) := by
  have htne : t ≠ DefaultLiquidityPoolType := by
    intro heq
    subst heq
    rcases hne with h | h
    · exact h rfl
    · exact h rfl
  have hidx1 : t.PoolTypeIndex = 1 →
      validateLiquidityPoolTypes (Value.poolTypes (some [t])) = some Err.onlyDefaultAllowed := by
    intro hidx
    rw [validateLiquidityPoolTypes_poolTypes]
    simp only
    rw [if_neg (by simp [indexLoop, hidx]), if_neg (by simp), if_neg (by simp),
      if_pos (by simpa using htne)]
  have hidx2 : t.PoolTypeIndex ≠ 1 →
      validateLiquidityPoolTypes (Value.poolTypes (some [t])) = some Err.indexMustBeSorted := by
    intro hidx
    rw [validateLiquidityPoolTypes_poolTypes]
    simp only
    rw [if_pos]
    simp only [indexLoop, Nat.zero_add, ne_eq]
    rw [if_pos (fun h => hidx h.symm)]
    simp
  refine ⟨?_, hidx1, hidx2⟩
  by_cases hidx : t.PoolTypeIndex = 1
  · rw [hidx1 hidx]
    simp
  · rw [hidx2 hidx]
    simp

/-- Instance of the amended C14 at the pool type named "OtherPoolType" with index 1. -/
theorem validateLiquidityPoolTypes_single_not_default_witness :
    (renamedPoolType.MinReserveCoinNum = 2 ∧ renamedPoolType.MaxReserveCoinNum = 2 ∧
      (renamedPoolType.Name ≠ "DefaultPoolType" ∨ renamedPoolType.PoolTypeIndex ≠ 1)) ∧
    (validateLiquidityPoolTypes (Value.poolTypes (some [renamedPoolType])) ≠ none ∧
      (renamedPoolType.PoolTypeIndex = 1 →
        validateLiquidityPoolTypes (Value.poolTypes (some [renamedPoolType])) =
          some Err.onlyDefaultAllowed) ∧
      (renamedPoolType.PoolTypeIndex ≠ 1 →
        validateLiquidityPoolTypes (Value.poolTypes (some [renamedPoolType])) =
          some Err.indexMustBeSorted)) :=
  ⟨⟨rfl, rfl, Or.inl (by decide)⟩,
    validateLiquidityPoolTypes_single_not_default renamedPoolType rfl rfl (Or.inl (by decide))⟩

/-! ## C15: the registered pairs -/

/-- C15: `Params.ParamSetPairs` registers exactly five pairs, one for each field of
`Params`, under pairwise distinct keys ("LiquidityPoolTypes", "MinInitDepositToPool",
"InitPoolCoinMintAmount", "SwapFeeRate", "LiquidityPoolCreationFee"), each with the
validator of that field, in the order `Params.Validate` runs them; so `p.Validate()`
returns nil if and only if the validator of every registered pair accepts the value of
the field the pair is registered for. -/
theorem Params.ParamSetPairs_agrees_with_Validate (cv : Coins → Option CoinsErr) (p : Params) :
    (p.ParamSetPairs cv).length = 5 ∧
    (p.ParamSetPairs cv).map ParamSetPair.Key =
      ["LiquidityPoolTypes", "MinInitDepositToPool", "InitPoolCoinMintAmount",
        "SwapFeeRate", "LiquidityPoolCreationFee"] ∧
    ((p.ParamSetPairs cv).map ParamSetPair.Key).Nodup ∧
    (p.ParamSetPairs cv).map ParamSetPair.Value =
      [Value.poolTypes p.LiquidityPoolTypes, Value.int p.MinInitDepositToPool,
        Value.int p.InitPoolCoinMintAmount, Value.dec p.SwapFeeRate,
        Value.coins p.LiquidityPoolCreationFee] ∧
    (p.ParamSetPairs cv).map ParamSetPair.ValidatorFn =
      [validateLiquidityPoolTypes, validateMinInitDepositToPool,
        validateInitPoolCoinMintAmount, validateSwapFeeRate,
        validateLiquidityPoolCreationFee cv] ∧
    p.Validate cv =
      (p.ParamSetPairs cv).findSome? (fun pair => pair.ValidatorFn pair.Value) ∧
    (p.Validate cv = none ↔
      ∀ pair ∈ p.ParamSetPairs cv, pair.ValidatorFn pair.Value = none) := by
  have hkeys : (p.ParamSetPairs cv).map ParamSetPair.Key =
      ["LiquidityPoolTypes", "MinInitDepositToPool", "InitPoolCoinMintAmount",
        "SwapFeeRate", "LiquidityPoolCreationFee"] := rfl
  refine ⟨rfl, hkeys, by rw [hkeys]; decide, rfl, rfl, ?_, ?_⟩
  · simp only [Params.Validate, Params.ParamSetPairs, NewParamSetPair, List.findSome?]
    cases validateLiquidityPoolTypes (Value.poolTypes p.LiquidityPoolTypes) <;>
    cases validateMinInitDepositToPool (Value.int p.MinInitDepositToPool) <;>
    cases validateInitPoolCoinMintAmount (Value.int p.InitPoolCoinMintAmount) <;>
    cases validateSwapFeeRate (Value.dec p.SwapFeeRate) <;>
    cases validateLiquidityPoolCreationFee cv (Value.coins p.LiquidityPoolCreationFee) <;>
    rfl
  · rw [Params.Validate_eq_none]
    simp only [Params.ParamSetPairs, NewParamSetPair, List.mem_cons, List.mem_singleton,
      List.not_mem_nil, or_false, forall_eq_or_imp, forall_eq]

end Liquidity
